import Mathlib

/-!
# MAX541X digital potentiometer driver: resistance/code conversion

A shallow embedding of `MAX541X.h` / `MAX541X.cpp`.

* `uint8_t`, `uint16_t` and `uint32_t` values are natural numbers; the places
  where the source converts into such a type reduce modulo `2^8` / `2^32`.
* `double` values are exact rationals.  Every intermediate `double` of `setR`
  and `getR` is either exactly representable (products and quotients by the
  power of two `taps = 256`, sums of small multiples of `1/256`) or is a
  quotient by the full-scale resistance that is only ever fed to `round`; such
  a quotient has a denominator dividing `3125`, so it stays at least `1/6250`
  away from every rounding boundary while the binary rounding error is below
  `2^-15`.  Truncation and rounding of the rational therefore agree with the
  machine results, for 32-bit as well as 64-bit `double`.
* The two-wire transport (`Wire`) is an external collaborator: a bus value
  records the transactions and the status of `endTransmission` is an input.
-/

namespace MAX541X

/-! ## Constants (`MAX541X.h` lines 48-57, `MAX541X.cpp` lines 58-59) -/

/-- Register address of the volatile memory. -/
def MAX541X_VREG : Nat := 0x11
/-- Register address of the non-volatile memory. -/
def MAX541X_NVREG : Nat := 0x21
/-- Register address of the non-volatile to volatile transfer. -/
def MAX541X_NVREGxVREG : Nat := 0x61
/-- Register address of the volatile to non-volatile transfer. -/
def MAX541X_VREGxNVREG : Nat := 0x51

/-- Wiper to L configuration. -/
def MAX541X_WL : Nat := 0
/-- Wiper to H configuration. -/
def MAX541X_WH : Nat := 1

/-- Number of taps of the device (`const uint16_t taps = 256`). -/
def taps : Nat := 256
/-- Wiper resistance in ohms (`const uint16_t Rwiper = 375`). -/
def Rwiper : Nat := 375

/-- The `enum Model` of the class: the model fixes the full-scale resistance. -/
inductive Model where
  | MAX5417
  | MAX5418
  | MAX5419
  deriving DecidableEq, Repr

/-- Enumerator values of `Model` (50 kOhm, 100 kOhm, 200 kOhm). -/
def Model.val : Model → Nat
  | .MAX5417 => 50000
  | .MAX5418 => 100000
  | .MAX5419 => 200000

/-! ## Machine arithmetic -/

/-- Unsigned 32-bit subtraction `a - b` (wraps modulo `2^32`). -/
def subU32 (a b : Nat) : Nat := (a % 2 ^ 32 + 2 ^ 32 - b % 2 ^ 32) % 2 ^ 32

/-- Conversion of a `double` to an integer: truncation toward zero. -/
def truncDouble (x : ℚ) : ℤ := if 0 ≤ x then ⌊x⌋ else ⌈x⌉

/-- Conversion of an integer value to `uint32_t`. -/
def toU32 (z : ℤ) : Nat := (z % 2 ^ 32).toNat

/-- Conversion of an integer value to `uint8_t`. -/
def toU8 (z : ℤ) : Nat := (z % 2 ^ 8).toNat

/-- The `round` of the Arduino core,
`((x)>=0?(long)((x)+0.5):(long)((x)-0.5))`: round to nearest, halves away
from zero. -/
def round (x : ℚ) : ℤ := if 0 ≤ x then truncDouble (x + 1 / 2) else truncDouble (x - 1 / 2)

/-! ## Driver state and bus -/

/-- The private members of `class MAX541X`. -/
structure Device where
  _addr : Nat
  _Rfull : Nat
  _mode : Nat
  _Rcode : Nat
  deriving DecidableEq, Repr

/-- The two-wire bus as the driver sees it: the address and bytes queued by
`beginTransmission` / `write`, and the transactions ended so far (oldest
first), each an address with its bytes. -/
structure TwoWire where
  txAddress : Nat
  txBuffer : List Nat
  sent : List (Nat × List Nat)
  deriving DecidableEq, Repr

/-- Method `Wire.beginTransmission(addr)`. -/
def TwoWire.beginTransmission (w : TwoWire) (addr : Nat) : TwoWire :=
  { w with txAddress := addr, txBuffer := [] }

/-- Method `Wire.write(b)`. -/
def TwoWire.write (w : TwoWire) (b : Nat) : TwoWire :=
  { w with txBuffer := w.txBuffer ++ [b] }

/-- Method `Wire.endTransmission()`: the queued bytes go out as one transaction and the
transport reports `status`. -/
def TwoWire.endTransmission (w : TwoWire) (status : Nat) : Nat × TwoWire :=
  (status, { w with txBuffer := [], sent := w.sent ++ [(w.txAddress, w.txBuffer)] })

/-- Main constructor `MAX541X(addr, m, mode)`: the code starts at 0. -/
def Device.mk3 (addr : Nat) (m : Model) (mode : Nat) : Device :=
  { _addr := addr, _Rfull := m.val, _mode := mode, _Rcode := 0 }

/-- Method `MAX541X::write(reg, data)` (lines 101-110).  Returns the status of
`endTransmission`, the new driver state and the new bus. -/
def write (d : Device) (w : TwoWire) (status : Nat) (reg data : Nat) :
    Nat × Device × TwoWire :=
  let d1 := if reg = MAX541X_VREG then { d with _Rcode := data } else d
  let w1 := w.beginTransmission d1._addr
  let w2 := w1.write reg
  let w3 := w2.write data
  let r := w3.endTransmission status
  (r.1, d1, r.2)

/-! ## `setR` (lines 123-161) -/

/-- Lines 129-135 of `setR`: the value of the local `r` after the edge-condition
statements, for full scale `Rfull`, mode `mode` and argument `r`. -/
def setR_clamp (Rfull mode r : Nat) : Nat :=
  let r1 := if r > Rfull then Rfull else r
  let r2 := if r1 < 2 * Rwiper then 2 * Rwiper else subU32 r1 Rwiper
  if mode ≠ MAX541X_WL then
    if (r2 : ℚ) < (Rfull : ℚ) / (taps : ℚ) then toU32 (truncDouble ((Rfull : ℚ) / (taps : ℚ)))
    else r2
  else r2

/-- Lines 147-157 of `setR`: the value of the `round(...)` expression that is
assigned to `data`. -/
def setR_round (Rfull mode r : Nat) : ℤ :=
  let r3 := setR_clamp Rfull mode r
  if mode = MAX541X_WL then
    round ((subU32 r3 Rwiper : ℚ) * (taps : ℚ) / (Rfull : ℚ))
  else
    round (-1 * (((subU32 r3 Rwiper : ℚ) * (taps : ℚ) / (Rfull : ℚ)) - (taps : ℚ)))

/-- The `uint8_t data` of `setR`: the rounded value converted to a byte. -/
def setR_data (Rfull mode r : Nat) : Nat := toU8 (setR_round Rfull mode r)

/-- Method `MAX541X::setR(r)`: the rounded value goes to the volatile register. -/
def setR (d : Device) (w : TwoWire) (status : Nat) (r : Nat) : Nat × Device × TwoWire :=
  write d w status MAX541X_VREG (setR_data d._Rfull d._mode r)

/-! ## `getR` (lines 171-175) -/

/-- Method `MAX541X::getR()`. -/
def getR (d : Device) : Nat :=
  if d._mode = MAX541X_WL then
    toU32 (truncDouble (((d._Rcode : ℚ) / (taps : ℚ)) * (d._Rfull : ℚ) + (Rwiper : ℚ)))
  else
    toU32 (truncDouble ((((taps : ℤ) - (d._Rcode : ℤ) : ℤ) : ℚ) / (taps : ℚ) * (d._Rfull : ℚ)
      + (Rwiper : ℚ)))

/-! ## Non-volatile operations (lines 185-225) -/

/-- Method `MAX541X::writeNonvolatile(data)`. -/
def writeNonvolatile (d : Device) (w : TwoWire) (status : Nat) (data : Nat) :
    Nat × Device × TwoWire :=
  write d w status MAX541X_NVREG data

/-- Method `MAX541X::switchNVtoV()`. -/
def switchNVtoV (d : Device) (w : TwoWire) (status : Nat) : Nat × Device × TwoWire :=
  write d w status MAX541X_NVREGxVREG 0

/-- Method `MAX541X::switchVtoNV()`. -/
def switchVtoNV (d : Device) (w : TwoWire) (status : Nat) : Nat × Device × TwoWire :=
  write d w status MAX541X_VREGxNVREG 0

/-! ## The conversion as the specification words it -/

/-- Specification, Wiper-to-Low: clamp the target to `[2 * Rwiper, Rfull]`, subtract the
wiper resistance once, then `code = round (tapResistance * 256 / fullScale)`. -/
def spec_code_WL (F r : Nat) : ℤ :=
  let c := max (2 * Rwiper) (min r F)
  round (((c : ℚ) - (Rwiper : ℚ)) * (taps : ℚ) / (F : ℚ))

/-- Specification, Wiper-to-High: as `spec_code_WL`, with the tap resistance floored at
`fullScale / 256` and `code = round (256 - tapResistance * 256 / fullScale)`. -/
def spec_code_WH (F r : Nat) : ℤ :=
  let c := max (2 * Rwiper) (min r F)
  let t := max ((c : ℚ) - (Rwiper : ℚ)) ((F : ℚ) / (taps : ℚ))
  round ((taps : ℚ) - t * (taps : ℚ) / (F : ℚ))

/-! ## Natural-number forms of the `double` expressions of `setR` -/

/-- Natural-number form of lines 129-135 of `setR`. -/
def clampNat (F mode r : Nat) : Nat :=
  let r1 := if r > F then F else r
  let r2 := if r1 < 750 then 750 else r1 - 375
  if mode ≠ 0 then (if 256 * r2 < F then F / 256 else r2) else r2

/-- Natural-number form of the rounded value of lines 147-157 of `setR`. -/
def codeNat (F mode r : Nat) : Nat :=
  if mode = 0 then (512 * (clampNat F mode r - 375) + F) / (2 * F)
  else (513 * F - 512 * (clampNat F mode r - 375)) / (2 * F)

/-! ## Sequences of calls -/

/-- Line 129 of `setR`: the value of `r` after the upper clamp; it is the minuend of the
subtraction of line 131 whenever that subtraction is executed. -/
def setR_line129 (Rfull r : Nat) : Nat := if r > Rfull then Rfull else r

/-- The public methods of the class, as calls with their arguments. -/
inductive Op where
  | setR (r : Nat)
  | write (reg data : Nat)
  | writeNonvolatile (data : Nat)
  | switchVtoNV
  | switchNVtoV
  | getR
  deriving DecidableEq, Repr

/-- One call: the driver state and the bus after `op`, when the transport answers the
transaction of the call (if it issues one) with `status`.  The `const` method `getR`
has no statement that touches a member or `Wire`. -/
def step (s : Device × TwoWire) (op : Op) (status : Nat) : Device × TwoWire :=
  match op with
  | .setR r => (setR s.1 s.2 status r).2
  | .write reg data => (write s.1 s.2 status reg data).2
  | .writeNonvolatile data => (writeNonvolatile s.1 s.2 status data).2
  | .switchVtoNV => (switchVtoNV s.1 s.2 status).2
  | .switchNVtoV => (switchNVtoV s.1 s.2 status).2
  | .getR => s

/-- A finite sequence of calls, each paired with the status the transport reports. -/
def run (s : Device × TwoWire) : List (Op × Nat) → Device × TwoWire
  | [] => s
  | c :: rest => run (step s c.1 c.2) rest

/-- How one more transaction changes "the data byte last sent to the volatile
register": a transaction whose register byte is `MAX541X_VREG` replaces it. -/
def volatileUpdate (acc : Option Nat) (t : Nat × List Nat) : Option Nat :=
  match t.2 with
  | reg :: data :: _ => if reg = MAX541X_VREG then some data else acc
  | _ => acc

/-- Data byte of the most recent transaction of the log addressed to the volatile
register, if there is one. -/
def lastVolatileData (sent : List (Nat × List Nat)) : Option Nat :=
  sent.foldl volatileUpdate none

/-! ## `setR` with the unsigned subtractions checked -/

/-- Unsigned 32-bit subtraction that reports a wrap-around: the machine result when the
minuend is at least the subtrahend, `none` when the subtraction would wrap. -/
def subU32_checked (a b : Nat) : Option Nat := if b ≤ a then some (subU32 a b) else none

/-- Lines 129-135 of `setR`, statement by statement as `setR_clamp`, with the subtraction
`r-Rwiper` of line 131 checked: `none` if that subtraction is executed on a minuend below
`Rwiper`. -/
def setR_clamp_checked (Rfull mode r : Nat) : Option Nat :=
  let r1 := if r > Rfull then Rfull else r
  let r2 := if r1 < 2 * Rwiper then some (2 * Rwiper) else subU32_checked r1 Rwiper
  r2.bind fun r2 =>
    if mode ≠ MAX541X_WL then
      if (r2 : ℚ) < (Rfull : ℚ) / (taps : ℚ) then
        some (toU32 (truncDouble ((Rfull : ℚ) / (taps : ℚ))))
      else some r2
    else some r2

/-- Lines 129-157 of `setR`, as `setR_round`, with every subtraction of `Rwiper` checked:
the one of line 131 (inside `setR_clamp_checked`) and the one of line 151 respectively
156.  The result is `none` as soon as one executed subtraction would wrap. -/
def setR_round_checked (Rfull mode r : Nat) : Option ℤ :=
  (setR_clamp_checked Rfull mode r).bind fun r3 =>
    (subU32_checked r3 Rwiper).bind fun n =>
      if mode = MAX541X_WL then
        some (round ((n : ℚ) * (taps : ℚ) / (Rfull : ℚ)))
      else
        some (round (-1 * (((n : ℚ) * (taps : ℚ) / (Rfull : ℚ)) - (taps : ℚ))))

/-! ## Agreement of the natural-number forms with the embedding -/

theorem truncDouble_of_nonneg (x : ℚ) (hx : 0 ≤ x) : truncDouble x = ⌊x⌋ := by
  simp [truncDouble, hx]

/-- Rounding a non-negative quotient of naturals: `round (a / b)` is the natural-number
quotient `(2 * a + b) / (2 * b)`. -/
theorem round_natCast_div (a b : Nat) (hb : 0 < b) :
    round ((a : ℚ) / (b : ℚ)) = (((2 * a + b) / (2 * b) : Nat) : ℤ) := by
  have hbq : (0 : ℚ) < (b : ℚ) := by exact_mod_cast hb
  have h0 : (0 : ℚ) ≤ (a : ℚ) / (b : ℚ) := by positivity
  have h1 : (0 : ℚ) ≤ (a : ℚ) / (b : ℚ) + 1 / 2 := by positivity
  have h2 : (a : ℚ) / (b : ℚ) + 1 / 2 = (((2 * a + b : Nat) : ℚ)) / (((2 * b : Nat)) : ℚ) := by
    push_cast
    field_simp
    ring
  unfold round
  rw [if_pos h0, truncDouble_of_nonneg _ h1, h2, Rat.floor_natCast_div_natCast]
  norm_cast

/-- Truncating a non-negative quotient of naturals gives the natural-number quotient. -/
theorem truncDouble_natCast_div (a b : Nat) :
    truncDouble ((a : ℚ) / (b : ℚ)) = ((a / b : Nat) : ℤ) := by
  have h0 : (0 : ℚ) ≤ (a : ℚ) / (b : ℚ) := by positivity
  rw [truncDouble_of_nonneg _ h0, Rat.floor_natCast_div_natCast]
  norm_cast

theorem toU32_natCast (n : Nat) : toU32 (n : ℤ) = n % 2 ^ 32 := by
  unfold toU32
  omega

theorem toU8_natCast (n : Nat) : toU8 (n : ℤ) = n % 2 ^ 8 := by
  unfold toU8
  omega

theorem setR_clamp_eq_clampNat (F mode r : Nat) (hF : F < 2 ^ 32) :
    setR_clamp F mode r = clampNat F mode r := by
  have hcmp : ∀ n : Nat, ((n : ℚ) < (F : ℚ) / ((256 : Nat) : ℚ)) ↔ 256 * n < F := by
    intro n
    rw [lt_div_iff₀ (by norm_num : (0 : ℚ) < ((256 : Nat) : ℚ))]
    constructor
    · intro h
      have h2 : ((n * 256 : Nat) : ℚ) < (F : ℚ) := by push_cast; exact h
      have h3 : n * 256 < F := by exact_mod_cast h2
      omega
    · intro h
      have h3 : n * 256 < F := by omega
      have h2 : ((n * 256 : Nat) : ℚ) < (F : ℚ) := by exact_mod_cast h3
      push_cast at h2
      exact h2
  have htr : toU32 (truncDouble ((F : ℚ) / ((256 : Nat) : ℚ))) = F / 256 := by
    rw [truncDouble_natCast_div, toU32_natCast]
    omega
  have hsub : ∀ a : Nat, a ≤ F → ¬ a < 750 → subU32 a 375 = a - 375 := by
    intro a ha hlt
    unfold subU32
    omega
  unfold setR_clamp clampNat
  simp only [Rwiper, taps, MAX541X_WL, hcmp, htr]
  by_cases hr : r > F
  · simp only [if_pos hr]
    by_cases h750 : F < 750
    · simp [h750]
    · simp [h750, hsub F (le_refl F) h750]
  · simp only [if_neg hr]
    by_cases h750 : r < 750
    · simp [h750]
    · simp [h750, hsub r (by omega) h750]

theorem clampNat_bounds (m : Model) (mode r : Nat) :
    375 ≤ clampNat m.val mode r ∧ clampNat m.val mode r ≤ m.val := by
  unfold clampNat
  cases m <;> simp only [Model.val] <;> split_ifs <;> omega

/-- The rounded value of `setR` in natural-number arithmetic, for the three models. -/
theorem setR_round_eq_codeNat (m : Model) (mode r : Nat) :
    setR_round m.val mode r = (codeNat m.val mode r : ℤ) := by
  have hF : m.val < 2 ^ 32 := by cases m <;> simp [Model.val]
  have hF0 : 0 < m.val := by cases m <;> simp [Model.val]
  obtain ⟨hlo, hhi⟩ := clampNat_bounds m mode r
  have hsub : subU32 (clampNat m.val mode r) 375 = clampNat m.val mode r - 375 := by
    unfold subU32
    omega
  have hn : clampNat m.val mode r - 375 ≤ m.val := by omega
  unfold setR_round codeNat
  simp only [setR_clamp_eq_clampNat _ _ _ hF, Rwiper, taps, MAX541X_WL, hsub]
  generalize clampNat m.val mode r - 375 = n at hn ⊢
  generalize m.val = F at hF0 hn ⊢
  by_cases hm : mode = 0
  · simp only [if_pos hm]
    have key : (n : ℚ) * ((256 : Nat) : ℚ) / (F : ℚ) = ((n * 256 : Nat) : ℚ) / (F : ℚ) := by
      push_cast
      ring
    have e : 2 * (n * 256) = 512 * n := by ring
    rw [key, round_natCast_div _ _ hF0, e]
  · simp only [if_neg hm]
    have hq : (F : ℚ) ≠ 0 := by
      have : 0 < (F : ℚ) := by exact_mod_cast hF0
      exact ne_of_gt this
    have hle : n * 256 ≤ 256 * F := by omega
    have key : -1 * ((n : ℚ) * ((256 : Nat) : ℚ) / (F : ℚ) - ((256 : Nat) : ℚ))
        = ((256 * F - n * 256 : Nat) : ℚ) / (F : ℚ) := by
      rw [Nat.cast_sub hle]
      push_cast
      field_simp
      ring
    have e : 2 * (256 * F - n * 256) + F = 513 * F - 512 * n := by omega
    rw [key, round_natCast_div _ _ hF0, e]

/-- The byte that `setR` hands to `write`, in natural-number arithmetic. -/
theorem setR_data_eq (m : Model) (mode r : Nat) :
    setR_data m.val mode r = codeNat m.val mode r % 256 := by
  unfold setR_data
  rw [setR_round_eq_codeNat, toU8_natCast]
  norm_num

/-- The value `getR` returns, in natural-number arithmetic, for codes below 256. -/
theorem getR_eq (m : Model) (addr mode c : Nat) (hc : c ≤ 255) :
    getR { _addr := addr, _Rfull := m.val, _mode := mode, _Rcode := c } =
      if mode = 0 then c * m.val / 256 + 375 else (256 - c) * m.val / 256 + 375 := by
  have hF : m.val ≤ 200000 := by cases m <;> simp [Model.val]
  unfold getR
  simp only [Rwiper, taps, MAX541X_WL]
  by_cases hm : mode = 0
  · simp only [if_pos hm]
    have e : ((c : ℚ) / ((256 : Nat) : ℚ)) * (m.val : ℚ) + ((375 : Nat) : ℚ)
        = ((c * m.val + 375 * 256 : Nat) : ℚ) / ((256 : Nat) : ℚ) := by
      push_cast
      field_simp
      norm_num
    rw [e, truncDouble_natCast_div, toU32_natCast]
    have hb : c * m.val ≤ 255 * 200000 := Nat.mul_le_mul hc hF
    omega
  · simp only [if_neg hm]
    have e : ((((256 : Nat) : ℤ) - (c : ℤ) : ℤ) : ℚ) / ((256 : Nat) : ℚ) * (m.val : ℚ)
          + ((375 : Nat) : ℚ)
        = (((256 - c) * m.val + 375 * 256 : Nat) : ℚ) / ((256 : Nat) : ℚ) := by
      rw [Nat.cast_add, Nat.cast_mul, Nat.cast_sub (by omega : c ≤ 256)]
      push_cast
      field_simp
      norm_num
    rw [e, truncDouble_natCast_div, toU32_natCast]
    have hb : (256 - c) * m.val ≤ 256 * 200000 := Nat.mul_le_mul (by omega) hF
    omega

/-- The specification's Wiper-to-Low code in natural-number arithmetic. -/
theorem spec_code_WL_eq (F r : Nat) (hF : 0 < F) :
    spec_code_WL F r = (((512 * (max 750 (min r F) - 375) + F) / (2 * F) : Nat) : ℤ) := by
  unfold spec_code_WL
  simp only [Rwiper, taps]
  have hc : 375 ≤ max (2 * 375) (min r F) := by omega
  have key : (((max (2 * 375) (min r F) : Nat) : ℚ) - ((375 : Nat) : ℚ)) * ((256 : Nat) : ℚ) / (F : ℚ)
      = (((max (2 * 375) (min r F) - 375) * 256 : Nat) : ℚ) / (F : ℚ) := by
    rw [Nat.cast_mul, Nat.cast_sub hc]
  have e : 2 * ((max (2 * 375) (min r F) - 375) * 256) = 512 * (max 750 (min r F) - 375) := by
    omega
  rw [key, round_natCast_div _ _ hF, e]

/-- The specification's Wiper-to-High code in natural-number arithmetic. -/
theorem spec_code_WH_eq (F r : Nat) (hF : 750 ≤ F) :
    spec_code_WH F r =
      (((513 * F - 2 * max (256 * (max 750 (min r F) - 375)) F) / (2 * F) : Nat) : ℤ) := by
  unfold spec_code_WH
  simp only [Rwiper, taps]
  have hF0 : 0 < F := by omega
  have hq : (0 : ℚ) < (F : ℚ) := by exact_mod_cast hF0
  have hc : 375 ≤ max (2 * 375) (min r F) := by omega
  have hcF : max (2 * 375) (min r F) - 375 ≤ F := by omega
  have e0 : max (2 * 375) (min r F) = max 750 (min r F) := by omega
  rw [e0] at hc hcF ⊢
  generalize max 750 (min r F) = c at hc hcF ⊢
  have hsub : ((c : ℚ) - ((375 : Nat) : ℚ)) = ((c - 375 : Nat) : ℚ) := by
    rw [Nat.cast_sub hc]
  rw [hsub]
  generalize c - 375 = n at hcF ⊢
  by_cases hn : F ≤ 256 * n
  · have hmax : max ((n : ℚ)) ((F : ℚ) / ((256 : Nat) : ℚ)) = (n : ℚ) := by
      apply max_eq_left
      rw [div_le_iff₀ (by norm_num : (0 : ℚ) < ((256 : Nat) : ℚ))]
      have : ((F : Nat) : ℚ) ≤ ((256 * n : Nat) : ℚ) := by exact_mod_cast hn
      push_cast at this ⊢
      linarith
    have hle : n * 256 ≤ 256 * F := by omega
    have key : ((256 : Nat) : ℚ) - (n : ℚ) * ((256 : Nat) : ℚ) / (F : ℚ)
        = ((256 * F - n * 256 : Nat) : ℚ) / (F : ℚ) := by
      rw [Nat.cast_sub hle]
      push_cast
      field_simp
    have e : 2 * (256 * F - n * 256) + F = 513 * F - 2 * max (256 * n) F := by omega
    rw [hmax, key, round_natCast_div _ _ hF0, e]
  · have hmax : max ((n : ℚ)) ((F : ℚ) / ((256 : Nat) : ℚ)) = (F : ℚ) / ((256 : Nat) : ℚ) := by
      apply max_eq_right
      rw [le_div_iff₀ (by norm_num : (0 : ℚ) < ((256 : Nat) : ℚ))]
      have : ((256 * n : Nat) : ℚ) ≤ ((F : Nat) : ℚ) := by exact_mod_cast (by omega : 256 * n ≤ F)
      push_cast at this ⊢
      linarith
    have key : ((256 : Nat) : ℚ) - (F : ℚ) / ((256 : Nat) : ℚ) * ((256 : Nat) : ℚ) / (F : ℚ)
        = ((255 * F : Nat) : ℚ) / (F : ℚ) := by
      push_cast
      field_simp
      ring
    have e : 2 * (255 * F) + F = 513 * F - 2 * max (256 * n) F := by omega
    rw [hmax, key, round_natCast_div _ _ hF0, e]

/-! ## What one call of `setR` does to the bus and to the driver state -/

theorem setR_sent (d : Device) (w : TwoWire) (status r : Nat) :
    (setR d w status r).2.2.sent =
      w.sent ++ [(d._addr, [MAX541X_VREG, setR_data d._Rfull d._mode r])] := by
  simp [setR, write, TwoWire.beginTransmission, TwoWire.write, TwoWire.endTransmission]

theorem setR_state (d : Device) (w : TwoWire) (status r : Nat) :
    (setR d w status r).2.1 = { d with _Rcode := setR_data d._Rfull d._mode r } := by
  simp [setR, write]

theorem setR_status (d : Device) (w : TwoWire) (status r : Nat) :
    (setR d w status r).1 = status := by
  simp [setR, write, TwoWire.endTransmission]

/-! ## Conversion claims -/

/-- C1 (Wiper-to-Low conversion), evaluated on the code at the example of the
specification: on a MAX5417 (full scale 50000) in Wiper-to-Low mode `setR(25000)` sends
code 124 to the volatile register, because the wiper resistance is subtracted on line 131
and again on line 151, whereas the specified formula `round ((c - 375) * 256 / F)` gives
126. -/
theorem setR_wiperLow_25000_sends_124 (addr : Nat) (w : TwoWire) (status : Nat) :
    (setR (Device.mk3 addr Model.MAX5417 MAX541X_WL) w status 25000).2.2.sent
        = w.sent ++ [(addr, [0x11, 124])]
      ∧ setR_clamp 50000 MAX541X_WL 25000 = 24625
      ∧ setR_round 50000 MAX541X_WL 25000 = 124
      ∧ spec_code_WL 50000 25000 = 126 := by
  have h : setR_data Model.MAX5417.val MAX541X_WL 25000 = 124 := by
    rw [setR_data_eq]
    decide
  have h2 : setR_round Model.MAX5417.val MAX541X_WL 25000 = 124 := by
    rw [setR_round_eq_codeNat]
    decide
  refine ⟨?_, ?_, h2, ?_⟩
  · rw [setR_sent]
    simp only [Device.mk3]
    rw [h]
    rfl
  · rw [setR_clamp_eq_clampNat _ _ _ (by decide)]
    decide
  · rw [spec_code_WL_eq _ _ (by decide)]
    decide

/-- C2 (Wiper-to-High conversion), evaluated on the code at the example of the
specification: on a MAX5417 in Wiper-to-High mode `setR(25000)` sends code 132 to the
volatile register (the wiper resistance is subtracted on line 131 and again on line 156),
whereas the specified formula `round (256 - t * 256 / F)` gives 130. -/
theorem setR_wiperHigh_25000_sends_132 (addr : Nat) (w : TwoWire) (status : Nat) :
    (setR (Device.mk3 addr Model.MAX5417 MAX541X_WH) w status 25000).2.2.sent
        = w.sent ++ [(addr, [0x11, 132])]
      ∧ setR_round 50000 MAX541X_WH 25000 = 132
      ∧ spec_code_WH 50000 25000 = 130 := by
  have h : setR_data Model.MAX5417.val MAX541X_WH 25000 = 132 := by
    rw [setR_data_eq]
    decide
  have h2 : setR_round Model.MAX5417.val MAX541X_WH 25000 = 132 := by
    rw [setR_round_eq_codeNat]
    decide
  refine ⟨?_, h2, ?_⟩
  · rw [setR_sent]
    simp only [Device.mk3]
    rw [h]
    rfl
  · rw [spec_code_WH_eq _ _ (by decide)]
    decide

/-- C3 (getR formula): for each model and every cached code `c` in `[0, 255]`, `getR`
returns `floor (c * F / 256) + 375` in Wiper-to-Low mode and
`floor ((256 - c) * F / 256) + 375` in Wiper-to-High mode. -/
theorem getR_formula (m : Model) (addr c : Nat) (hc : c ≤ 255) :
    getR { _addr := addr, _Rfull := m.val, _mode := MAX541X_WL, _Rcode := c }
        = c * m.val / 256 + 375
      ∧ getR { _addr := addr, _Rfull := m.val, _mode := MAX541X_WH, _Rcode := c }
        = (256 - c) * m.val / 256 + 375 := by
  constructor
  · rw [getR_eq m addr MAX541X_WL c hc]
    rfl
  · rw [getR_eq m addr MAX541X_WH c hc]
    rfl

/-- Witness of C3: full scale 50000, code 126 in Wiper-to-Low mode and code 130 in
Wiper-to-High mode both read back as 24984 ohms. -/
theorem getR_formula_witness :
    126 ≤ 255 ∧ 130 ≤ 255
      ∧ getR { _addr := 0x28, _Rfull := 50000, _mode := MAX541X_WL, _Rcode := 126 } = 24984
      ∧ getR { _addr := 0x28, _Rfull := 50000, _mode := MAX541X_WH, _Rcode := 130 } = 24984 :=
  ⟨by decide, by decide, (getR_formula Model.MAX5417 0x28 126 (by decide)).1,
    (getR_formula Model.MAX5417 0x28 130 (by decide)).2⟩

/-- C4 (code range), evaluated on the code: on a MAX5417 and on a MAX5418 in
Wiper-to-High mode the rounded value of `setR(750)` is 256, outside `[0, 255]`, and the
byte that reaches the volatile register is its wrap-around 0.  The guard of line 134
floors `r` at `Rfull / 256`, but line 156 subtracts the wiper resistance once more. -/
theorem setR_wiperHigh_750_rounds_to_256 (addr : Nat) (w : TwoWire) (status : Nat) :
    setR_round Model.MAX5417.val MAX541X_WH 750 = 256
      ∧ setR_round Model.MAX5418.val MAX541X_WH 750 = 256
      ∧ (setR (Device.mk3 addr Model.MAX5417 MAX541X_WH) w status 750).2.2.sent
        = w.sent ++ [(addr, [0x11, 0])]
      ∧ (setR (Device.mk3 addr Model.MAX5418 MAX541X_WH) w status 750).2.2.sent
        = w.sent ++ [(addr, [0x11, 0])] := by
  have h7 : setR_data Model.MAX5417.val MAX541X_WH 750 = 0 := by
    rw [setR_data_eq]
    decide
  have h8 : setR_data Model.MAX5418.val MAX541X_WH 750 = 0 := by
    rw [setR_data_eq]
    decide
  refine ⟨?_, ?_, ?_, ?_⟩
  · rw [setR_round_eq_codeNat]
    decide
  · rw [setR_round_eq_codeNat]
    decide
  · rw [setR_sent]
    simp only [Device.mk3]
    rw [h7]
    rfl
  · rw [setR_sent]
    simp only [Device.mk3]
    rw [h8]
    rfl

/-- C5 (round trip code -> ohms -> code), evaluated on the code: on a MAX5417 with cached
code 128 `getR` returns 25375 in both modes, and `setR(25375)` sends 126 (= 128 - 2) in
Wiper-to-Low mode and 130 (= 128 + 2) in Wiper-to-High mode. -/
theorem roundtrip_code_128_off_by_two (addr : Nat) (w : TwoWire) (status : Nat) :
    getR { _addr := addr, _Rfull := 50000, _mode := MAX541X_WL, _Rcode := 128 } = 25375
      ∧ (setR { _addr := addr, _Rfull := 50000, _mode := MAX541X_WL, _Rcode := 128 }
          w status 25375).2.2.sent = w.sent ++ [(addr, [0x11, 126])]
      ∧ getR { _addr := addr, _Rfull := 50000, _mode := MAX541X_WH, _Rcode := 128 } = 25375
      ∧ (setR { _addr := addr, _Rfull := 50000, _mode := MAX541X_WH, _Rcode := 128 }
          w status 25375).2.2.sent = w.sent ++ [(addr, [0x11, 130])] := by
  have hl : setR_data Model.MAX5417.val MAX541X_WL 25375 = 126 := by
    rw [setR_data_eq]
    decide
  have hh : setR_data Model.MAX5417.val MAX541X_WH 25375 = 130 := by
    rw [setR_data_eq]
    decide
  refine ⟨?_, ?_, ?_, ?_⟩
  · exact getR_eq Model.MAX5417 addr MAX541X_WL 128 (by decide)
  · rw [setR_sent]
    exact congrArg (fun b => w.sent ++ [(addr, [0x11, b])]) hl
  · exact getR_eq Model.MAX5417 addr MAX541X_WH 128 (by decide)
  · rw [setR_sent]
    exact congrArg (fun b => w.sent ++ [(addr, [0x11, b])]) hh

/-- C6 (monotonicity, Wiper-to-Low), evaluated on the code: on a MAX5417 `setR(749)`
sends code 2 and `setR(750)` sends code 0, and on a MAX5418 they send 1 and 0: the code
decreases while the target increases.  A target below 750 is replaced by 750 on line 130
without the subtraction that line 131 applies to every target from 750 on. -/
theorem setR_wiperLow_not_monotone_at_750 (addr : Nat) (w : TwoWire) (status : Nat) :
    (setR (Device.mk3 addr Model.MAX5417 MAX541X_WL) w status 749).2.2.sent
        = w.sent ++ [(addr, [0x11, 2])]
      ∧ (setR (Device.mk3 addr Model.MAX5417 MAX541X_WL) w status 750).2.2.sent
        = w.sent ++ [(addr, [0x11, 0])]
      ∧ (setR (Device.mk3 addr Model.MAX5418 MAX541X_WL) w status 749).2.2.sent
        = w.sent ++ [(addr, [0x11, 1])]
      ∧ (setR (Device.mk3 addr Model.MAX5418 MAX541X_WL) w status 750).2.2.sent
        = w.sent ++ [(addr, [0x11, 0])] := by
  have h1 : setR_data Model.MAX5417.val MAX541X_WL 749 = 2 := by
    rw [setR_data_eq]
    decide
  have h2 : setR_data Model.MAX5417.val MAX541X_WL 750 = 0 := by
    rw [setR_data_eq]
    decide
  have h3 : setR_data Model.MAX5418.val MAX541X_WL 749 = 1 := by
    rw [setR_data_eq]
    decide
  have h4 : setR_data Model.MAX5418.val MAX541X_WL 750 = 0 := by
    rw [setR_data_eq]
    decide
  refine ⟨?_, ?_, ?_, ?_⟩ <;> rw [setR_sent]
  · exact congrArg (fun b => w.sent ++ [(addr, [0x11, b])]) h1
  · exact congrArg (fun b => w.sent ++ [(addr, [0x11, b])]) h2
  · exact congrArg (fun b => w.sent ++ [(addr, [0x11, b])]) h3
  · exact congrArg (fun b => w.sent ++ [(addr, [0x11, b])]) h4

/-- C7 (monotonicity, Wiper-to-High), evaluated on the code: on a MAX5417 `setR(750)`
sends code 0 and `setR(848)` sends code 255, so the code sent increases with the target;
the rounded values increase as well, from 254 at target 749 to 256 at target 750. -/
theorem setR_wiperHigh_not_monotone (addr : Nat) (w : TwoWire) (status : Nat) :
    (setR (Device.mk3 addr Model.MAX5417 MAX541X_WH) w status 750).2.2.sent
        = w.sent ++ [(addr, [0x11, 0])]
      ∧ (setR (Device.mk3 addr Model.MAX5417 MAX541X_WH) w status 848).2.2.sent
        = w.sent ++ [(addr, [0x11, 255])]
      ∧ setR_round Model.MAX5417.val MAX541X_WH 749 = 254
      ∧ setR_round Model.MAX5417.val MAX541X_WH 750 = 256 := by
  have h1 : setR_data Model.MAX5417.val MAX541X_WH 750 = 0 := by
    rw [setR_data_eq]
    decide
  have h2 : setR_data Model.MAX5417.val MAX541X_WH 848 = 255 := by
    rw [setR_data_eq]
    decide
  refine ⟨?_, ?_, ?_, ?_⟩
  · rw [setR_sent]
    exact congrArg (fun b => w.sent ++ [(addr, [0x11, b])]) h1
  · rw [setR_sent]
    exact congrArg (fun b => w.sent ++ [(addr, [0x11, b])]) h2
  · rw [setR_round_eq_codeNat]
    decide
  · rw [setR_round_eq_codeNat]
    decide

/-- C8 (lower clamp), evaluated on the code: on a MAX5417 the target 0 (below 750) does
not get the code of target 750: Wiper-to-Low sends 2 for `setR(0)` and 0 for `setR(750)`,
Wiper-to-High sends 254 for `setR(0)` and 0 for `setR(750)`.  Line 130 stores 750 for a
target below 750, while the `else` of line 131 turns the target 750 itself into 375. -/
theorem setR_below_750_differs_from_750 (addr : Nat) (w : TwoWire) (status : Nat) :
    (setR (Device.mk3 addr Model.MAX5417 MAX541X_WL) w status 0).2.2.sent
        = w.sent ++ [(addr, [0x11, 2])]
      ∧ (setR (Device.mk3 addr Model.MAX5417 MAX541X_WL) w status 750).2.2.sent
        = w.sent ++ [(addr, [0x11, 0])]
      ∧ (setR (Device.mk3 addr Model.MAX5417 MAX541X_WH) w status 0).2.2.sent
        = w.sent ++ [(addr, [0x11, 254])]
      ∧ (setR (Device.mk3 addr Model.MAX5417 MAX541X_WH) w status 750).2.2.sent
        = w.sent ++ [(addr, [0x11, 0])]
      ∧ setR_clamp 50000 MAX541X_WL 0 = 750
      ∧ setR_clamp 50000 MAX541X_WL 750 = 375 := by
  have h1 : setR_data Model.MAX5417.val MAX541X_WL 0 = 2 := by
    rw [setR_data_eq]
    decide
  have h2 : setR_data Model.MAX5417.val MAX541X_WL 750 = 0 := by
    rw [setR_data_eq]
    decide
  have h3 : setR_data Model.MAX5417.val MAX541X_WH 0 = 254 := by
    rw [setR_data_eq]
    decide
  have h4 : setR_data Model.MAX5417.val MAX541X_WH 750 = 0 := by
    rw [setR_data_eq]
    decide
  refine ⟨?_, ?_, ?_, ?_, ?_, ?_⟩
  · rw [setR_sent]
    exact congrArg (fun b => w.sent ++ [(addr, [0x11, b])]) h1
  · rw [setR_sent]
    exact congrArg (fun b => w.sent ++ [(addr, [0x11, b])]) h2
  · rw [setR_sent]
    exact congrArg (fun b => w.sent ++ [(addr, [0x11, b])]) h3
  · rw [setR_sent]
    exact congrArg (fun b => w.sent ++ [(addr, [0x11, b])]) h4
  · rw [setR_clamp_eq_clampNat _ _ _ (by decide)]
    decide
  · rw [setR_clamp_eq_clampNat _ _ _ (by decide)]
    decide

/-- C9 (upper clamp): for each model with full scale `F`, every wiper mode, every prior
state of driver and bus, every transport status and every target `r > F` (in particular
every such 32-bit target), `setR(r)` does exactly what `setR(F)` does: same code sent to
the volatile register, same cached code, same returned status. -/
theorem setR_above_full_scale (m : Model) (addr mode code : Nat) (w : TwoWire)
    (status r : Nat) (hr : m.val < r) :
    setR { _addr := addr, _Rfull := m.val, _mode := mode, _Rcode := code } w status r
      = setR { _addr := addr, _Rfull := m.val, _mode := mode, _Rcode := code } w status m.val := by
  have hc : setR_clamp m.val mode r = setR_clamp m.val mode m.val := by
    unfold setR_clamp
    simp only [gt_iff_lt, if_pos hr, lt_irrefl, if_false]
  have hd : setR_data m.val mode r = setR_data m.val mode m.val := by
    unfold setR_data setR_round
    simp only [hc]
  unfold setR
  simp only [hd]

/-- Witness of C9: a MAX5417 in Wiper-to-Low mode, target 60000 above the full scale
50000. -/
theorem setR_above_full_scale_witness :
    Model.MAX5417.val < 60000
      ∧ setR { _addr := 0x28, _Rfull := Model.MAX5417.val, _mode := MAX541X_WL, _Rcode := 0 }
          { txAddress := 0, txBuffer := [], sent := [] } 0 60000
        = setR { _addr := 0x28, _Rfull := Model.MAX5417.val, _mode := MAX541X_WL, _Rcode := 0 }
          { txAddress := 0, txBuffer := [], sent := [] } 0 Model.MAX5417.val :=
  ⟨by decide, setR_above_full_scale Model.MAX5417 0x28 MAX541X_WL 0
    { txAddress := 0, txBuffer := [], sent := [] } 0 60000 (by decide)⟩

/-- C10 (set-then-get example), evaluated on the code: on a MAX5417 (full scale 50000,
wiper resistance 375), after `setR(25000)` the next `getR()` returns 24593, in
Wiper-to-Low mode (cached code 124) and in Wiper-to-High mode (cached code 132) alike;
the specification's example expects 24984. -/
theorem setR_25000_then_getR (addr : Nat) (w : TwoWire) (status : Nat) :
    (setR (Device.mk3 addr Model.MAX5417 MAX541X_WL) w status 25000).2.1._Rcode = 124
      ∧ getR (setR (Device.mk3 addr Model.MAX5417 MAX541X_WL) w status 25000).2.1 = 24593
      ∧ (setR (Device.mk3 addr Model.MAX5417 MAX541X_WH) w status 25000).2.1._Rcode = 132
      ∧ getR (setR (Device.mk3 addr Model.MAX5417 MAX541X_WH) w status 25000).2.1 = 24593 := by
  have hl : setR_data Model.MAX5417.val MAX541X_WL 25000 = 124 := by
    rw [setR_data_eq]
    decide
  have hh : setR_data Model.MAX5417.val MAX541X_WH 25000 = 132 := by
    rw [setR_data_eq]
    decide
  have sl : (setR (Device.mk3 addr Model.MAX5417 MAX541X_WL) w status 25000).2.1
      = { _addr := addr, _Rfull := Model.MAX5417.val, _mode := MAX541X_WL, _Rcode := 124 } := by
    rw [setR_state]
    simp only [Device.mk3]
    rw [hl]
  have sh : (setR (Device.mk3 addr Model.MAX5417 MAX541X_WH) w status 25000).2.1
      = { _addr := addr, _Rfull := Model.MAX5417.val, _mode := MAX541X_WH, _Rcode := 132 } := by
    rw [setR_state]
    simp only [Device.mk3]
    rw [hh]
  refine ⟨?_, ?_, ?_, ?_⟩
  · rw [sl]
  · rw [sl]
    exact getR_eq Model.MAX5417 addr MAX541X_WL 124 (by decide)
  · rw [sh]
  · rw [sh]
    exact getR_eq Model.MAX5417 addr MAX541X_WH 132 (by decide)

/-! ## The register write and the cache -/

theorem write_sent (d : Device) (w : TwoWire) (status reg data : Nat) :
    (write d w status reg data).2.2.sent = w.sent ++ [(d._addr, [reg, data])] := by
  unfold write
  by_cases h : reg = MAX541X_VREG <;>
    simp [h, TwoWire.beginTransmission, TwoWire.write, TwoWire.endTransmission]

theorem write_Rcode (d : Device) (w : TwoWire) (status reg data : Nat) :
    (write d w status reg data).2.1._Rcode = if reg = MAX541X_VREG then data else d._Rcode := by
  unfold write
  by_cases h : reg = MAX541X_VREG <;> simp [h]

theorem write_config (d : Device) (w : TwoWire) (status reg data : Nat) :
    (write d w status reg data).2.1._addr = d._addr
      ∧ (write d w status reg data).2.1._Rfull = d._Rfull
      ∧ (write d w status reg data).2.1._mode = d._mode := by
  unfold write
  by_cases h : reg = MAX541X_VREG <;> simp [h]

theorem write_status (d : Device) (w : TwoWire) (status reg data : Nat) :
    (write d w status reg data).1 = status := by
  simp [write, TwoWire.endTransmission]

theorem lastVolatileData_append (l : List (Nat × List Nat)) (a reg data : Nat) :
    lastVolatileData (l ++ [(a, [reg, data])])
      = if reg = MAX541X_VREG then some data else lastVolatileData l := by
  unfold lastVolatileData
  rw [List.foldl_append]
  simp [volatileUpdate]

/-- A register write keeps "cached code = data byte last sent to the volatile register". -/
theorem write_keeps_cache (d : Device) (w : TwoWire) (status reg data : Nat)
    (h : d._Rcode = (lastVolatileData w.sent).getD 0) :
    (write d w status reg data).2.1._Rcode
      = (lastVolatileData (write d w status reg data).2.2.sent).getD 0 := by
  rw [write_sent, write_Rcode, lastVolatileData_append]
  by_cases hr : reg = MAX541X_VREG
  · simp [hr]
  · simp [hr, h]

theorem step_keeps_cache (s : Device × TwoWire) (op : Op) (status : Nat)
    (h : s.1._Rcode = (lastVolatileData s.2.sent).getD 0) :
    (step s op status).1._Rcode = (lastVolatileData (step s op status).2.sent).getD 0 := by
  cases op with
  | setR r => exact write_keeps_cache s.1 s.2 status _ _ h
  | write reg data => exact write_keeps_cache s.1 s.2 status reg data h
  | writeNonvolatile data => exact write_keeps_cache s.1 s.2 status _ data h
  | switchVtoNV => exact write_keeps_cache s.1 s.2 status _ 0 h
  | switchNVtoV => exact write_keeps_cache s.1 s.2 status _ 0 h
  | getR => exact h

theorem run_keeps_cache (ops : List (Op × Nat)) :
    ∀ s : Device × TwoWire, s.1._Rcode = (lastVolatileData s.2.sent).getD 0 →
      (run s ops).1._Rcode = (lastVolatileData (run s ops).2.sent).getD 0 := by
  induction ops with
  | nil => intro s h; exact h
  | cons c rest ih =>
    intro s h
    exact ih (step s c.1 c.2) (step_keeps_cache s c.1 c.2 h)

/-! ## Cache, status and transaction claims -/

/-- C11 (cache invariant): after every finite sequence of calls of `setR`, `write`,
`writeNonvolatile`, `switchVtoNV`, `switchNVtoV` and `getR` on a device built by the
three-argument constructor, whatever status the transport reports for each transaction,
the cached code is the data byte of the most recent transaction addressed to the volatile
register 0x11, and 0 if there is none; and the code cached by `setR` is the one it
computed, whatever the status. -/
theorem cache_invariant (addr : Nat) (m : Model) (mode ta : Nat) (tb : List Nat)
    (ops : List (Op × Nat)) :
    (run (Device.mk3 addr m mode, { txAddress := ta, txBuffer := tb, sent := [] }) ops).1._Rcode
        = (lastVolatileData
            (run (Device.mk3 addr m mode,
              { txAddress := ta, txBuffer := tb, sent := [] }) ops).2.sent).getD 0
      ∧ ∀ (d : Device) (w : TwoWire) (status r : Nat),
          (setR d w status r).2.1._Rcode = setR_data d._Rfull d._mode r := by
  constructor
  · apply run_keeps_cache
    simp [Device.mk3, lastVolatileData]
  · intro d w status r
    rw [setR_state]

/-- C12 (cache rule of `write`): for every register byte, data byte, prior state and
transport status, after `write(reg, d)` the cached code is `d` if `reg` is the volatile
register 0x11 and its previous value otherwise; hence the cache is unchanged unless
`reg = 0x11`. -/
theorem write_cache_rule (dev : Device) (w : TwoWire) (status reg d : Nat) :
    (write dev w status reg d).2.1._Rcode = (if reg = 0x11 then d else dev._Rcode)
      ∧ ((write dev w status reg d).2.1._Rcode = dev._Rcode ∨ reg = 0x11) := by
  have h := write_Rcode dev w status reg d
  simp only [MAX541X_VREG] at h
  refine ⟨h, ?_⟩
  by_cases hr : reg = 0x11
  · exact Or.inr hr
  · left
    rw [h, if_neg hr]

/-- C13 (status pass-through): `setR`, `writeNonvolatile`, `switchVtoNV`, `switchNVtoV`
and `write` each return exactly the status the transport reports at the end of the
transaction, for every argument and prior state. -/
theorem status_pass_through (d : Device) (w : TwoWire) (s r reg data : Nat) :
    (setR d w s r).1 = s
      ∧ (writeNonvolatile d w s data).1 = s
      ∧ (switchVtoNV d w s).1 = s
      ∧ (switchNVtoV d w s).1 = s
      ∧ (write d w s reg data).1 = s :=
  ⟨write_status d w s _ _, write_status d w s _ _, write_status d w s _ _,
    write_status d w s _ _, write_status d w s reg data⟩

/-- C14 (transfer commands): for every prior state, `switchVtoNV` and `switchNVtoV` each
add exactly one transaction to the bus, to the configured device address, with register
byte 0x51 (commit) respectively 0x61 (recall) and data byte 0x00. -/
theorem transfer_commands (d : Device) (w : TwoWire) (status : Nat) :
    (switchVtoNV d w status).2.2.sent = w.sent ++ [(d._addr, [0x51, 0x00])]
      ∧ (switchNVtoV d w status).2.2.sent = w.sent ++ [(d._addr, [0x61, 0x00])] :=
  ⟨write_sent d w status MAX541X_VREGxNVREG 0, write_sent d w status MAX541X_NVREGxVREG 0⟩

/-- C15 (raw non-volatile write): for every code `data`, every model and wiper mode and
every prior state, `writeNonvolatile(data)` adds exactly one transaction to the bus, to
the configured device address, with register byte 0x21 and data byte `data` itself. -/
theorem writeNonvolatile_raw (d : Device) (w : TwoWire) (status data : Nat) :
    (writeNonvolatile d w status data).2.2.sent = w.sent ++ [(d._addr, [0x21, data])] :=
  write_sent d w status MAX541X_NVREG data

/-- C16 (non-volatile operations leave the driver state alone): for every prior state,
argument and transport status, `writeNonvolatile`, `switchVtoNV` and `switchNVtoV` leave
all four members unchanged, so `getR` returns the same value before and after. -/
theorem nonvolatile_ops_keep_state (d : Device) (w : TwoWire) (status data : Nat) :
    (writeNonvolatile d w status data).2.1 = d
      ∧ (switchVtoNV d w status).2.1 = d
      ∧ (switchNVtoV d w status).2.1 = d
      ∧ getR (writeNonvolatile d w status data).2.1 = getR d
      ∧ getR (switchVtoNV d w status).2.1 = getR d
      ∧ getR (switchNVtoV d w status).2.1 = getR d := by
  have h1 : (writeNonvolatile d w status data).2.1 = d := by
    simp [writeNonvolatile, write, MAX541X_NVREG, MAX541X_VREG]
  have h2 : (switchVtoNV d w status).2.1 = d := by
    simp [switchVtoNV, write, MAX541X_VREGxNVREG, MAX541X_VREG]
  have h3 : (switchNVtoV d w status).2.1 = d := by
    simp [switchNVtoV, write, MAX541X_NVREGxVREG, MAX541X_VREG]
  refine ⟨h1, h2, h3, ?_, ?_, ?_⟩
  · rw [h1]
  · rw [h2]
  · rw [h3]

/-- C17 (`getR` is a pure local computation): a call of `getR` leaves the driver state
and the bus (its log of transactions included) as they were, whatever the state and the
history of the bus, and its result depends only on the cached code, the wiper mode and
the full-scale resistance: the bus address plays no part. -/
theorem getR_pure (d : Device) (w : TwoWire) (status a1 a2 F mode c : Nat)
    (ops : List (Op × Nat)) :
    step (d, w) Op.getR status = (d, w)
      ∧ run (d, w) ((Op.getR, status) :: ops) = run (d, w) ops
      ∧ getR { _addr := a1, _Rfull := F, _mode := mode, _Rcode := c }
        = getR { _addr := a2, _Rfull := F, _mode := mode, _Rcode := c } :=
  ⟨rfl, rfl, rfl⟩

/-! ## Arithmetic safety of `setR` -/

/-- The edge-condition statements of `setR` start from the value of line 129. -/
theorem setR_clamp_line129 (Rfull r : Nat) :
    setR_clamp Rfull MAX541X_WL r
      = if setR_line129 Rfull r < 2 * Rwiper then 2 * Rwiper
        else subU32 (setR_line129 Rfull r) Rwiper := by
  simp [setR_clamp, setR_line129]

/-- The value of `r` after line 129 never exceeds the full scale. -/
theorem setR_line129_le (Rfull r : Nat) : setR_line129 Rfull r ≤ Rfull := by
  unfold setR_line129
  split_ifs <;> omega

/-- The checked edge-condition statements succeed with the value of `setR_clamp`
whenever line 131 is skipped or has a minuend of at least `Rwiper`. -/
theorem setR_clamp_checked_eq (Rfull mode r : Nat)
    (h : setR_line129 Rfull r < 2 * Rwiper ∨ Rwiper ≤ setR_line129 Rfull r) :
    setR_clamp_checked Rfull mode r = some (setR_clamp Rfull mode r) := by
  have key : ∀ r2 : Nat,
      (if mode ≠ MAX541X_WL then
        if (r2 : ℚ) < (Rfull : ℚ) / (taps : ℚ) then
          some (toU32 (truncDouble ((Rfull : ℚ) / (taps : ℚ))))
        else some r2
      else some r2)
      = some (if mode ≠ MAX541X_WL then
        if (r2 : ℚ) < (Rfull : ℚ) / (taps : ℚ) then
          toU32 (truncDouble ((Rfull : ℚ) / (taps : ℚ)))
        else r2
      else r2) := by
    intro r2
    split_ifs <;> exact Eq.refl _
  have e1 : setR_clamp_checked Rfull mode r
      = (if setR_line129 Rfull r < 2 * Rwiper then some (2 * Rwiper)
          else subU32_checked (setR_line129 Rfull r) Rwiper).bind fun r2 =>
            if mode ≠ MAX541X_WL then
              if (r2 : ℚ) < (Rfull : ℚ) / (taps : ℚ) then
                some (toU32 (truncDouble ((Rfull : ℚ) / (taps : ℚ))))
              else some r2
            else some r2 := Eq.refl _
  have e2 : setR_clamp Rfull mode r
      = (fun r2 : Nat => if mode ≠ MAX541X_WL then
            if (r2 : ℚ) < (Rfull : ℚ) / (taps : ℚ) then
              toU32 (truncDouble ((Rfull : ℚ) / (taps : ℚ)))
            else r2
          else r2)
          (if setR_line129 Rfull r < 2 * Rwiper then 2 * Rwiper
            else subU32 (setR_line129 Rfull r) Rwiper) := Eq.refl _
  rw [e1, e2]
  by_cases h1 : setR_line129 Rfull r < 2 * Rwiper
  · rw [if_pos h1, if_pos h1, Option.some_bind]
    exact key _
  · have h2 : Rwiper ≤ setR_line129 Rfull r := by
      rcases h with h | h
      · exact absurd h h1
      · exact h
    rw [if_neg h1, if_neg h1]
    unfold subU32_checked
    rw [if_pos h2, Option.some_bind]
    exact key _

/-- C18 (no negative resistance): for each model, every wiper mode and every target `r`
(in particular every 32-bit one), no unsigned subtraction of the wiper resistance in
`setR` wraps.  Running lines 129-157 with each subtraction checked succeeds and gives the
values of `setR_clamp` and `setR_round`.  The subtraction of line 131 is either skipped,
the value after line 131 being `2 * Rwiper`, or has a minuend of at least 375 and leaves
the exact difference; the subtraction of lines 151/156 has the value left by lines
129-135 as minuend, which is at least 375 also when the Wiper-to-High floor has replaced
it, and gives the exact difference. -/
theorem setR_subtractions_do_not_wrap (m : Model) (mode r : Nat) :
    setR_clamp_checked m.val mode r = some (setR_clamp m.val mode r)
      ∧ setR_round_checked m.val mode r = some (setR_round m.val mode r)
      ∧ ((setR_line129 m.val r < 2 * Rwiper ∧ setR_clamp m.val MAX541X_WL r = 2 * Rwiper)
          ∨ (Rwiper ≤ setR_line129 m.val r
              ∧ (setR_clamp m.val MAX541X_WL r : ℤ)
                = (setR_line129 m.val r : ℤ) - (Rwiper : ℤ)))
      ∧ Rwiper ≤ setR_clamp m.val mode r
      ∧ (subU32 (setR_clamp m.val mode r) Rwiper : ℤ)
          = (setR_clamp m.val mode r : ℤ) - (Rwiper : ℤ) := by
  have hF : m.val < 2 ^ 32 := by cases m <;> simp [Model.val]
  obtain ⟨hlo, hhi⟩ := clampNat_bounds m mode r
  have h129 : setR_line129 m.val r ≤ m.val := setR_line129_le m.val r
  have hdec : setR_line129 m.val r < 2 * Rwiper ∨ Rwiper ≤ setR_line129 m.val r := by
    simp only [Rwiper]
    omega
  have hc : setR_clamp_checked m.val mode r = some (setR_clamp m.val mode r) :=
    setR_clamp_checked_eq m.val mode r hdec
  have hlo2 : Rwiper ≤ setR_clamp m.val mode r := by
    rw [setR_clamp_eq_clampNat _ _ _ hF]
    exact hlo
  refine ⟨hc, ?_, ?_, hlo2, ?_⟩
  · unfold setR_round_checked
    rw [hc]
    simp only [Option.some_bind, subU32_checked, if_pos hlo2]
    unfold setR_round
    by_cases hm : mode = MAX541X_WL
    · simp only [if_pos hm]
    · simp only [if_neg hm]
  · rw [setR_clamp_line129]
    by_cases h : setR_line129 m.val r < 2 * Rwiper
    · left
      exact ⟨h, by rw [if_pos h]⟩
    · right
      rw [if_neg h]
      simp only [Rwiper, subU32] at *
      constructor
      · omega
      · omega
  · rw [setR_clamp_eq_clampNat _ _ _ hF]
    simp only [Rwiper, subU32] at *
    omega

/-- C19 (Wiper-to-Low never overflows the data byte): in Wiper-to-Low mode, for every
target `r` (in particular every 32-bit one), the rounded value of `setR` lies between 0
and 252 on the MAX5417, 254 on the MAX5418 and 255 on the MAX5419; these bounds are
reached at the full-scale target, and the byte sent is the rounded value itself. -/
theorem wiperLow_code_range (r : Nat) :
    (0 ≤ setR_round Model.MAX5417.val MAX541X_WL r
        ∧ setR_round Model.MAX5417.val MAX541X_WL r ≤ 252
        ∧ setR_round Model.MAX5417.val MAX541X_WL 50000 = 252)
      ∧ (0 ≤ setR_round Model.MAX5418.val MAX541X_WL r
        ∧ setR_round Model.MAX5418.val MAX541X_WL r ≤ 254
        ∧ setR_round Model.MAX5418.val MAX541X_WL 100000 = 254)
      ∧ (0 ≤ setR_round Model.MAX5419.val MAX541X_WL r
        ∧ setR_round Model.MAX5419.val MAX541X_WL r ≤ 255
        ∧ setR_round Model.MAX5419.val MAX541X_WL 200000 = 255)
      ∧ ∀ m : Model, (setR_data m.val MAX541X_WL r : ℤ) = setR_round m.val MAX541X_WL r := by
  have b7 : codeNat 50000 0 r ≤ 252 := by
    simp only [codeNat, clampNat]
    split_ifs <;> omega
  have b8 : codeNat 100000 0 r ≤ 254 := by
    simp only [codeNat, clampNat]
    split_ifs <;> omega
  have b9 : codeNat 200000 0 r ≤ 255 := by
    simp only [codeNat, clampNat]
    split_ifs <;> omega
  refine ⟨⟨?_, ?_, ?_⟩, ⟨?_, ?_, ?_⟩, ⟨?_, ?_, ?_⟩, ?_⟩
  · rw [setR_round_eq_codeNat]
    exact Int.natCast_nonneg _
  · rw [setR_round_eq_codeNat]
    exact_mod_cast b7
  · rw [setR_round_eq_codeNat]
    decide
  · rw [setR_round_eq_codeNat]
    exact Int.natCast_nonneg _
  · rw [setR_round_eq_codeNat]
    exact_mod_cast b8
  · rw [setR_round_eq_codeNat]
    decide
  · rw [setR_round_eq_codeNat]
    exact Int.natCast_nonneg _
  · rw [setR_round_eq_codeNat]
    exact_mod_cast b9
  · rw [setR_round_eq_codeNat]
    decide
  · intro m
    rw [setR_data_eq, setR_round_eq_codeNat]
    have hb : codeNat m.val MAX541X_WL r ≤ 255 := by
      cases m
      · exact le_trans b7 (by decide)
      · exact le_trans b8 (by decide)
      · exact b9
    rw [Nat.mod_eq_of_lt (by omega)]

end MAX541X
